import Mathlib

/-!
Verification of the customer-support widget of
`src/web/static/customer_support.js` (flair-agent-platform).

The JavaScript file holds three copies of the same support-widget IIFE
(lines 1–1184, 1185–2636 and 2637–3557).  Where the copies differ, the
Lean definitions carry a `V1` / `V2` suffix and the doc comment records
the exact line range that was translated.  JavaScript strings are
`String`, absent/nullable values are `Option`, machine side effects
(DOM writes, `fetch`) are made explicit: a function that issues a
network request returns the request value it would send, an exception
path is an `Except` value, and the widget's mutable `state` object is
the structure `WidgetState` passed and returned explicitly.

The orchestration backend (the server behind `/api/v1/customer/...`) is
not part of the repository sources; the definitions in the
`CoreModel` section are modelled from the specification's words and are
marked as such in their doc comments.
-/

namespace CustomerSupport

/-- JavaScript `x || d` for a string-or-absent value: the default is
used when the value is absent or the empty string (both falsy). -/
def jsOrStr (x : Option String) (d : String) : String :=
  match x with
  | none => d
  | some s => if s = "" then d else s

/-- JavaScript `s.toLowerCase()`: character-wise lower-casing (the
status strings it is applied to are ASCII). -/
def jsToLower (s : String) : String := String.mk (s.data.map Char.toLower)

/-- JavaScript `Math.round (a / b)` for natural `a` and positive `b`:
`⌊a / b + 1 / 2⌋ = (2 * a + b) / (2 * b)` in integer division. -/
def jsRound (a b : Nat) : Nat := (2 * a + b) / (2 * b)

/-- JavaScript `s.slice (a, b)` for `0 ≤ a ≤ b`: the characters from
index `a` (inclusive) to `b` (exclusive), clamped to the string. -/
def jsSlice (s : String) (a b : Nat) : String :=
  String.mk ((s.data.drop a).take (b - a))

/-- `l` starts with the run `p`. -/
def beginsWith (p l : List Char) : Bool := l.take p.length == p

/-- `p` occurs as a contiguous run inside `l`. -/
def occursIn (p : List Char) : List Char → Bool
  | [] => p.isEmpty
  | c :: rest => beginsWith p (c :: rest) || occursIn p rest

/-- `pat` occurs as a substring of `s`. -/
def strContains (s pat : String) : Bool := occursIn pat.data s.data

/-- The branding block `state.brand` (name and published call-center
phone number); either field may be missing. -/
structure Brand where
  name : Option String
  callCenterPhone : Option String

/-- `userFacingErrorMessage` (customer_support.js:1306–1326, second
copy): the fixed customer-facing fallback message for an error
context.  `trackerErrorText` is `state.uiStrings.tracker_error_text`. -/
def userFacingErrorMessage (brand : Brand) (trackerErrorText : Option String)
    (context : String) : String :=
  let b := jsOrStr brand.name "support"
  let urgentLine :=
    match brand.callCenterPhone with
    | some phone =>
        if phone = "" then ""
        else " If this is urgent, you can call " ++ b ++ " at " ++ phone ++
          " (wait times may vary)."
    | none => ""
  if context = "send" then
    "I couldn't process that request right now. Please try again in a moment." ++ urgentLine
  else if context = "summary" then
    "I couldn't prepare a summary right now. Please try again in a moment."
  else if context = "upload" then
    "I couldn't analyze that upload right now. You can still type the key details."
  else if context = "voice_transcription" then
    "I couldn't transcribe that audio clearly. Please try again, or type your question."
  else if context = "voice_input" then
    "Voice input is not available right now. You can type your question instead."
  else if context = "tracker" then
    jsOrStr trackerErrorText "I couldn't load your updates right now. Try Refresh."
  else
    "Something went wrong. Please try again."

/-- JavaScript `String(err)` for an `Error` constructed with message
`msg`: the name `"Error"` followed by `": "` and the message. -/
def jsErrorString (msg : String) : String := "Error: " ++ msg

/-- The message of the `Error` thrown by the first copy's
`callCustomerMessageAPI` on a non-ok HTTP response
(customer_support.js:545): `` `Request failed (${resp.status})` ``. -/
def callCustomerMessageAPIErrorV1 (status : Nat) : String :=
  "Request failed (" ++ toString status ++ ")"

/-- The agent reply appended by the `catch` branch of the first copy's
`sendCustomerMessage` (customer_support.js:578–581):
`` `Sorry, I ran into a problem while sending your request. ${String(err)}` ``. -/
def sendErrorReplyV1 (errString : String) : String :=
  "Sorry, I ran into a problem while sending your request. " ++ errString

/-- The agent reply appended by the `catch` branch of the second copy's
`sendCustomerMessage` (customer_support.js:1988–1991):
`err?.message || userFacingErrorMessage("send")`. -/
def sendErrorReplyV2 (brand : Brand) (trackerErrorText : Option String)
    (errMessage : Option String) : String :=
  jsOrStr errMessage (userFacingErrorMessage brand trackerErrorText "send")

/-- The JSON body returned by `/api/v1/customer/continue-channel`; any
field may be missing. -/
structure ContinueData where
  customer_message : Option String
  phone_number : Option String
  sms_preview : Option String

/-- What a run of `continueChannel` shows the customer: the system
notes appended to the transcript, in order, and the status line it
sets (`none` when the branch leaves the status line untouched). -/
structure ContinueResult where
  notes : List String
  statusLine : Option String

/-- `continueChannel` of the first copy (customer_support.js:589–627).
`attempt` is the outcome of the `try` body up to the parsed response
data: `.error` covers a rejected `fetch` (network error), a non-ok
HTTP status (the thrown `` `HTTP ${resp.status}` ``) and a JSON parse
failure; `errString` is `String(err)` for that error.  The result is
`.ok` exactly when the call returns to its caller instead of raising. -/
def continueChannelV1 (brand : Brand) (toChannel : String)
    (attempt : Except String ContinueData) : Except String ContinueResult :=
  match attempt with
  | .ok data =>
      .ok { notes :=
              [jsOrStr data.customer_message ("Prepared continuation to " ++ toChannel ++ ".")] ++
              (if toChannel = "phone" then
                match data.phone_number with
                | some pn =>
                    if pn = "" then []
                    else ["Call " ++ jsOrStr brand.name "support" ++ ": " ++ pn]
                | none => []
              else []) ++
              (if toChannel = "sms" then
                match data.sms_preview with
                | some sp =>
                    if sp = "" then []
                    else ["SMS summary is ready. You can use Summary if you want a fresh recap after another update."]
                | none => []
              else [])
            statusLine := some ("Prepared continuation to " ++ toChannel ++ ".") }
  | .error errString =>
      if toChannel = "phone" then
        .ok { notes := ["Could not prepare phone continuation automatically. " ++
                jsOrStr brand.name "Support" ++ "'s published call center number is " ++
                jsOrStr brand.callCenterPhone "the official support number" ++
                ". Wait times may vary."]
              statusLine := some "Phone number shown." }
      else if toChannel = "sms" then
        .ok { notes := ["Could not prepare SMS continuation automatically. You can still use Summary to prepare a support recap, or continue by phone."]
              statusLine := some "SMS continuation unavailable." }
      else
        .ok { notes := ["Could not prepare " ++ toChannel ++ " continuation. " ++ errString]
              statusLine := none }

/-- `continueChannel` of the second copy (customer_support.js:1999–2038).
Identical to the first copy except in the final `catch` branch, which
no longer leaks `String(err)` and always sets the status line. -/
def continueChannelV2 (brand : Brand) (toChannel : String)
    (attempt : Except String ContinueData) : Except String ContinueResult :=
  match attempt with
  | .ok data =>
      .ok { notes :=
              [jsOrStr data.customer_message ("Prepared continuation to " ++ toChannel ++ ".")] ++
              (if toChannel = "phone" then
                match data.phone_number with
                | some pn =>
                    if pn = "" then []
                    else ["Call " ++ jsOrStr brand.name "support" ++ ": " ++ pn]
                | none => []
              else []) ++
              (if toChannel = "sms" then
                match data.sms_preview with
                | some sp =>
                    if sp = "" then []
                    else ["SMS summary is ready. You can use Summary if you want a fresh recap after another update."]
                | none => []
              else [])
            statusLine := some ("Prepared continuation to " ++ toChannel ++ ".") }
  | .error _ =>
      if toChannel = "phone" then
        .ok { notes := ["Could not prepare phone continuation automatically. " ++
                jsOrStr brand.name "Support" ++ "'s published call center number is " ++
                jsOrStr brand.callCenterPhone "the official support number" ++
                ". Wait times may vary."]
              statusLine := some "Phone number shown." }
      else if toChannel = "sms" then
        .ok { notes := ["Could not prepare SMS continuation automatically. You can still use Summary to prepare a support recap, or continue by phone."]
              statusLine := some "SMS continuation unavailable." }
      else
        .ok { notes := ["I couldn't prepare " ++ toChannel ++ " continuation right now. Please try again in a moment."]
              statusLine := some ((if toChannel = "phone" then "Phone" else "SMS") ++ " continuation unavailable.") }

/-- One entry of the promise ledger as delivered to the widget
(`data.promise_ledger`): any field may be missing; `due_at` is the
parsed `new Date(item.due_at)` timestamp in milliseconds, `none` when
the field is absent, falsy or does not parse to a valid date. -/
structure PromiseItem where
  title : Option String
  summary : Option String
  status : Option String
  due_at : Option Int

/-- `String(item.status || "").toLowerCase()` (customer_support.js:1852). -/
def statusLowerDue (it : PromiseItem) : String := jsToLower (jsOrStr it.status "")

/-- `formatPromiseDue` (customer_support.js:1845–1858, second copy):
the due-time line of one promise card, computed at read time `now`
(milliseconds). -/
def formatPromiseDue (it : PromiseItem) (now : Int) : String :=
  match it.due_at with
  | none => ""
  | some due =>
      let ms : Int := due - now
      let absHours : Nat := jsRound ms.natAbs 3600000
      if statusLowerDue it = "overdue" then
        if absHours ≤ 1 then "Follow-up may be overdue (about an hour)."
        else "Follow-up may be overdue (" ++ toString absHours ++ "h)."
      else if ms ≤ 0 then "Follow-up window reached."
      else if absHours < 1 then "Follow-up window later today."
      else "Follow-up window in ~" ++ toString absHours ++ "h."

/-- The status badge of one promise card
(customer_support.js:1816–1825): `String(item.status || "active")`
lower-cased and looked up in `{active, review, done}`, every other
value (including `overdue`) falling back to `"Active"`. -/
def promiseStatusBadge (it : PromiseItem) : String :=
  let statusValue := jsToLower (jsOrStr it.status "active")
  if statusValue = "active" then "Active"
  else if statusValue = "review" then "Review"
  else if statusValue = "done" then "Done"
  else "Active"

/-- One rendered promise card (customer_support.js:1805–1841): title,
status badge, summary and due-time meta line. -/
structure PromiseCard where
  title : String
  statusLabel : String
  summary : String
  meta : String

/-- The card `renderPromiseLedger` builds for one ledger item
(customer_support.js:1805–1841, second copy). -/
def renderPromiseCard (it : PromiseItem) (now : Int) : PromiseCard :=
  { title := jsOrStr it.title "Support commitment"
    statusLabel := promiseStatusBadge it
    summary := jsOrStr it.summary ""
    meta := formatPromiseDue it now }

/-- The list of promise cards `renderPromiseLedger` renders
(customer_support.js:1793–1843, second copy): the input coerced to a
list (`Array.isArray(items) ? items : []`), truncated by
`list.slice(0, 6)`; an empty list renders a muted placeholder and no
cards. -/
def renderPromiseLedgerCards (items : Option (List PromiseItem)) (now : Int) :
    List PromiseCard :=
  let list := items.getD []
  if list.isEmpty then []
  else (list.take 6).map (fun it => renderPromiseCard it now)

/-- `newSessionId` (customer_support.js:1365–1367, identical in all
three copies): `"sess-" + Math.random().toString(36).slice(2, 10)`.
`randStr` is the base-36 rendering of the `Math.random()` draw
(a string of the shape `"0.…"`, e.g. `"0.q2w3e4r5t6"`); only its
characters at indices 2–9 survive into the identifier. -/
def newSessionId (randStr : String) : String :=
  "sess-" ++ jsSlice randStr 2 10

/-- The JSON body of `/api/v1/customer/message`; only the fields the
widget reads are listed, each possibly missing.  Fields beyond the
nine that `renderTechnical` copies (`message`, `response_text`,
`spoken_message`, `support_reference`, `promise_ledger`,
`customer_effort`) are carried so that dependence on them is
expressible. -/
structure ApiResponse where
  session_id : Option String
  tenant : Option String
  channel : Option String
  mode : Option String
  state : Option String
  agent : Option String
  intent : Option String
  next_actions : List String
  escalate : Option Bool
  message : Option String
  response_text : Option String
  spoken_message : Option String
  support_reference : Option String
  promise_ledger : Option (List PromiseItem)
  customer_effort : Option String

/-- One transcript entry: the rendering role (`"user"`, `"agent"` or
`"system"` for `addSystemNote`) and the shown text. -/
structure TranscriptEntry where
  role : String
  text : String

/-- The widget's mutable `state` object together with the DOM cells it
writes (transcript, composer input, status line, send button), as one
explicit value (second copy, customer_support.js:1189–1215). -/
structure WidgetState where
  sessionId : String
  customerId : String
  tenant : String
  mode : String
  sending : Bool
  sendBtnDisabled : Bool
  statusLine : String
  input : String
  transcript : List TranscriptEntry
  lastResponse : Option ApiResponse
  promiseLedger : List PromiseItem
  customerEffort : Option String
  brand : Brand
  resetGreeting : Option String
  trackerErrorText : Option String
  voiceBackendStt : String
  voiceBackendTts : String
  mediaRecorderSupported : Bool
  speechRecognitionSupported : Bool
  synthEnabled : Bool
  lastHealth : Option String
  lastCapabilities : Option String
  lastAlerts : List String

/-- `resetSession` of the second copy (customer_support.js:2040–2074):
the backend reset call's outcome is ignored (`catch (_)`), then the
local state is reset: a fresh session id from a new random draw, the
last response, ledger and effort cleared, the transcript replaced by
the reset greeting and the `"Started a new request."` note, the input
cleared and the status line set to `"Connected."`. -/
def resetSession (st : WidgetState) (freshRand : String) : WidgetState :=
  { st with
    sessionId := newSessionId freshRand
    lastResponse := none
    promiseLedger := []
    customerEffort := none
    transcript :=
      [⟨"agent", jsOrStr st.resetGreeting
          ("New conversation started. I can help with support issues for " ++
            jsOrStr st.brand.name "your account" ++ ".")⟩,
        ⟨"system", "Started a new request."⟩]
    input := ""
    statusLine := "Connected." }

/-- The POST request `callCustomerMessageAPI` would issue
(customer_support.js:1924–1939, second copy). -/
structure MessageRequest where
  endpoint : String
  session_id : String
  customer_id : String
  channel : String
  content : String
  tenant : String
  ui_mode : String

/-- The request body and endpoint `callCustomerMessageAPI` builds from
the current state (customer_support.js:1924–1939, second copy). -/
def callCustomerMessageAPIRequest (st : WidgetState) (content : String)
    (channelOverride : Option String) : MessageRequest :=
  { endpoint :=
      if st.mode = "voice" then "/api/v1/customer/voice/simulate"
      else "/api/v1/customer/message"
    session_id := st.sessionId
    customer_id := st.customerId
    channel := jsOrStr channelOverride (if st.mode = "voice" then "voice" else "web")
    content := content
    tenant := st.tenant
    ui_mode := st.mode }

/-- The synchronous prefix of `sendCustomerMessage`
(customer_support.js:1955–1965, second copy), up to and including the
`await callCustomerMessageAPI(...)` request: the trimmed content is
computed, the guard `if (!content || state.sending) return;` applies,
and on the send path the user message is appended, the input cleared
when the text came from the composer, `state.sending` set,
the send button disabled and the status line set to `"Sending..."`.
Returns the new state and the request issued (`none` when the guard
drops the turn and no request is issued). -/
def sendCustomerMessageBegin (st : WidgetState) (text : Option String)
    (channelOverride : Option String) : WidgetState × Option MessageRequest :=
  let content := (text.getD st.input).trim
  if content = "" ∨ st.sending = true then (st, none)
  else
    ({ st with
        transcript := st.transcript ++ [⟨"user", content⟩]
        input := if text = none then "" else st.input
        sending := true
        sendBtnDisabled := true
        statusLine := "Sending..." },
      some (callCustomerMessageAPIRequest st content channelOverride))

/-- The projection of the last response that the second copy's
`renderTechnical` embeds in the technical panel
(customer_support.js:2534–2546): exactly the nine listed fields. -/
structure SafeResponse where
  session_id : Option String
  tenant : Option String
  channel : Option String
  mode : Option String
  state : Option String
  agent : Option String
  intent : Option String
  next_actions : List String
  escalate : Option Bool

/-- `safeLastResponse` (customer_support.js:2534–2546, second copy). -/
def safeLastResponse (r : Option ApiResponse) : Option SafeResponse :=
  r.map fun x =>
    { session_id := x.session_id
      tenant := x.tenant
      channel := x.channel
      mode := x.mode
      state := x.state
      agent := x.agent
      intent := x.intent
      next_actions := x.next_actions
      escalate := x.escalate }

/-- The object the second copy's `renderTechnical` serialises into the
technical panel (customer_support.js:2547–2560); the panel text is
`JSON.stringify` of this payload, so equal payloads give equal panel
text. -/
structure TechPayload where
  sessionId : String
  customerId : String
  tenant : String
  mode : String
  voiceBackendStt : String
  voiceBackendTts : String
  mediaRecorderSupported : Bool
  speechRecognitionSupported : Bool
  speechSynthesisSupported : Bool
  health : Option String
  lastCapabilities : Option String
  lastResponse : Option SafeResponse
  lastAlerts : List String

/-- `renderTechnical` of the second copy
(customer_support.js:2533–2562). -/
def renderTechnicalV2 (st : WidgetState) : TechPayload :=
  { sessionId := st.sessionId
    customerId := st.customerId
    tenant := st.tenant
    mode := st.mode
    voiceBackendStt := st.voiceBackendStt
    voiceBackendTts := st.voiceBackendTts
    mediaRecorderSupported := st.mediaRecorderSupported
    speechRecognitionSupported := st.speechRecognitionSupported
    speechSynthesisSupported := st.synthEnabled
    health := st.lastHealth
    lastCapabilities := st.lastCapabilities
    lastResponse := safeLastResponse st.lastResponse
    lastAlerts := st.lastAlerts }

/-- A recorded audio blob: only its byte size is inspected by the
guard of `transcribeAndSend`. -/
structure AudioBlob where
  size : Nat

/-- The POST request `transcribeAndSend` would issue to
`/api/v1/customer/voice/transcribe` (customer_support.js:2430–2441). -/
structure TranscribeRequest where
  mime_type : String
  language : String
  session_id : String
  customer_id : String
  tenant : String

/-- What the synchronous prefix of `transcribeAndSend` produces:
the transcription request issued (`none` when no network request is
made), the system notes appended, the voice hint text and the status
line set (`none` when untouched). -/
structure TranscribeBeginResult where
  request : Option TranscribeRequest
  notes : List String
  voiceHint : String
  statusLine : Option String

/-- The prefix of `transcribeAndSend` up to the transcription request
(customer_support.js:2420–2441, second copy): a missing blob or one
smaller than 300 bytes short-circuits into a "speak longer" note with
no request; otherwise the request is built and sent. -/
def transcribeAndSendBegin (st : WidgetState) (blob : Option AudioBlob)
    (mimeType : Option String) : TranscribeBeginResult :=
  match blob with
  | none =>
      { request := none
        notes := ["I couldn't hear enough audio. Please try again and speak a little longer."]
        voiceHint := "Try again and speak a little longer."
        statusLine := none }
  | some b =>
      if b.size < 300 then
        { request := none
          notes := ["I couldn't hear enough audio. Please try again and speak a little longer."]
          voiceHint := "Try again and speak a little longer."
          statusLine := none }
      else
        { request := some
            { mime_type := jsOrStr mimeType "audio/webm"
              language := "en"
              session_id := st.sessionId
              customer_id := st.customerId
              tenant := st.tenant }
          notes := []
          voiceHint := "Transcribing..."
          statusLine := some "Transcribing..." }

namespace CoreModel

/-- A structured turn response of the orchestration core (§4.1 of the
specification): the customer-facing message and the escalation flag. -/
structure CoreResponse where
  message : String
  escalate : Bool
deriving DecidableEq

/-- One recorded turn: its per-session sequence number, the delivered
text and the response computed for it. -/
structure CoreTurnRecord where
  seq : Nat
  text : String
  response : CoreResponse
deriving DecidableEq

/-- Modelled from the spec: the per-session state of the orchestration
core (the server behind `/api/v1/customer/...` is not among the
repository's source files).  §4.1: the session records processed
turns for redelivery dedupe; §4.6: the escalated flag, cleared only
by an explicit external action; commitments and artifacts are kept as
the lists of the titles/payloads created so far. -/
structure CoreSession where
  escalated : Bool
  turns : List CoreTurnRecord
  commitments : List String
  artifacts : List String
deriving DecidableEq

/-- Modelled from the spec: `processTurn` of the orchestration core,
which is not among the repository's source files.  §4.1's contract:
"if the same transport redelivers an identical (session id, text,
monotonic sequence) pair, the second delivery must not double-create
commitments or duplicate artifacts; dedupe by a per-session
monotonically increasing turn sequence number", with §7's
`transport_redelivery` rule "duplicate turn detected → return the
previously computed response idempotently, no reprocessing"; and
§4.6: "once escalated, subsequent turns remain flagged escalated
until an external actor (human agent system) explicitly clears it".
`handle`, `policy`, `commit` and `arts` stand for the pluggable
handler capabilities (reply text, escalation decision, commitments
and artifacts produced for a turn). -/
def processTurn (handle : String → String) (policy : String → Bool)
    (commit : String → List String) (arts : String → List String)
    (sess : CoreSession) (seq : Nat) (text : String) :
    CoreSession × CoreResponse :=
  match sess.turns.find? (fun t => t.seq == seq) with
  | some t => (sess, t.response)
  | none =>
      let esc := sess.escalated || policy text
      let resp : CoreResponse := { message := handle text, escalate := esc }
      ({ sess with
          escalated := esc
          turns := sess.turns ++ [⟨seq, text, resp⟩]
          commitments := sess.commitments ++ commit text
          artifacts := sess.artifacts ++ arts text },
        resp)

/-- Modelled from the spec: the explicit external clear of the
escalation flag (§4.6), the only operation that un-escalates. -/
def clearEscalation (sess : CoreSession) : CoreSession :=
  { sess with escalated := false }

/-- Processing a list of `(sequence, text)` turns in order, collecting
the responses. -/
def runTurns (handle : String → String) (policy : String → Bool)
    (commit : String → List String) (arts : String → List String) :
    CoreSession → List (Nat × String) → CoreSession × List CoreResponse
  | sess, [] => (sess, [])
  | sess, (seq, text) :: rest =>
      ((runTurns handle policy commit arts
          (processTurn handle policy commit arts sess seq text).1 rest).1,
        (processTurn handle policy commit arts sess seq text).2 ::
          (runTurns handle policy commit arts
            (processTurn handle policy commit arts sess seq text).1 rest).2)

end CoreModel

/-- A concrete widget state used to instantiate the theorems below
(the values a fresh `"flair"` web session starts from). -/
def sampleState : WidgetState :=
  { sessionId := "sess-abc12345"
    customerId := "cust-web-demo"
    tenant := "flair"
    mode := "text"
    sending := false
    sendBtnDisabled := false
    statusLine := "Connected."
    input := ""
    transcript := []
    lastResponse := none
    promiseLedger := []
    customerEffort := none
    brand := ⟨some "Flair", some "1-833-711-2333"⟩
    resetGreeting := none
    trackerErrorText := none
    voiceBackendStt := "unknown"
    voiceBackendTts := "browser"
    mediaRecorderSupported := true
    speechRecognitionSupported := true
    synthEnabled := true
    lastHealth := none
    lastCapabilities := none
    lastAlerts := [] }

/-- A ledger item whose `due_at` (millisecond 1000) lies in the past
at read time 7201000 (two hours later) while its stored status is
still `active`. -/
def pastDueActiveItem : PromiseItem :=
  { title := some "Check APPR eligibility"
    summary := some "We will confirm eligibility."
    status := some "active"
    due_at := some 1000 }

/-- The same ledger item with the stored status already `overdue`. -/
def storedOverdueItem : PromiseItem :=
  { pastDueActiveItem with status := some "overdue" }

/-- A concrete `/api/v1/customer/message` response. -/
def respA : ApiResponse :=
  { session_id := some "sess-abc12345"
    tenant := some "flair"
    channel := some "web"
    mode := some "text"
    state := some "resolving"
    agent := some "refund_agent"
    intent := some "refund"
    next_actions := ["submit_refund"]
    escalate := some false
    message := some "Your refund estimate is ready."
    response_text := none
    spoken_message := none
    support_reference := some "REF-1001"
    promise_ledger := none
    customer_effort := none }

/-- `respA` with different values in every field outside the nine that
`renderTechnical` projects. -/
def respB : ApiResponse :=
  { respA with
    message := some "Internal tool trace: refund pipeline step 7 ok."
    response_text := some "alternate text"
    spoken_message := some "spoken"
    support_reference := some "REF-9999"
    promise_ledger := some [pastDueActiveItem]
    customer_effort := some "high" }

/-- C1: the spec's propagation policy says handler-level errors are
never shown to the customer with raw internal detail, only as one of
the fixed customer-facing fallback messages.  The first copy's
`sendCustomerMessage` (customer_support.js:549–587) violates this: on
an HTTP 500 from the message endpoint its `catch` appends
`String(err)` to the reply, so the customer sees the raw text
`Error: Request failed (500)`, which embeds the internal detail and is
not the fixed `"send"` fallback that the second copy
(customer_support.js:1955–1997) uses. -/
theorem c1_sendCustomerMessageV1_shows_raw_error_detail :
    sendErrorReplyV1 (jsErrorString (callCustomerMessageAPIErrorV1 500)) =
      "Sorry, I ran into a problem while sending your request. Error: Request failed (500)" ∧
    strContains (sendErrorReplyV1 (jsErrorString (callCustomerMessageAPIErrorV1 500)))
      "Request failed (500)" = true ∧
    sendErrorReplyV1 (jsErrorString (callCustomerMessageAPIErrorV1 500)) ≠
      userFacingErrorMessage ⟨none, none⟩ none "send" := by
  refine ⟨by decide, by decide, by decide⟩

/-- C8: `renderPromiseLedger` (customer_support.js:1793–1843) renders
at most 6 commitment cards, whatever list it receives: the list is
truncated by `list.slice(0, 6)` before cards are built. -/
theorem c8_renderPromiseLedger_at_most_six_cards
    (items : Option (List PromiseItem)) (now : Int) :
    (renderPromiseLedgerCards items now).length ≤ 6 := by
  unfold renderPromiseLedgerCards
  simp only []
  split
  · simp
  · simp only [List.length_map, List.length_take]
    exact min_le_left 6 _

/-- C10: `transcribeAndSend` (customer_support.js:2420–2426) with an
absent audio blob or one under 300 bytes issues no transcription
request and instead shows the note asking the customer to try again
and speak a little longer. -/
theorem c10_short_audio_no_transcription_request (st : WidgetState)
    (blob : Option AudioBlob) (mimeType : Option String)
    (h : blob = none ∨ ∃ b, blob = some b ∧ b.size < 300) :
    (transcribeAndSendBegin st blob mimeType).request = none ∧
    (transcribeAndSendBegin st blob mimeType).notes =
      ["I couldn't hear enough audio. Please try again and speak a little longer."] ∧
    (transcribeAndSendBegin st blob mimeType).voiceHint =
      "Try again and speak a little longer." := by
  rcases h with h | ⟨b, rfl, hb⟩
  · subst h
    exact ⟨rfl, rfl, rfl⟩
  · simp [transcribeAndSendBegin, hb]

/-- Witness for C10: a 120-byte recording produces the "speak longer"
note and no network request. -/
theorem c10_witness :
    (transcribeAndSendBegin sampleState (some ⟨120⟩) none).request = none ∧
    (transcribeAndSendBegin sampleState (some ⟨120⟩) none).notes =
      ["I couldn't hear enough audio. Please try again and speak a little longer."] ∧
    (transcribeAndSendBegin sampleState (some ⟨120⟩) none).voiceHint =
      "Try again and speak a little longer." :=
  c10_short_audio_no_transcription_request sampleState (some ⟨120⟩) none
    (Or.inr ⟨⟨120⟩, rfl, by decide⟩)

/-- C5: `sendCustomerMessage` (customer_support.js:1955–1997) guards
with `if (!content || state.sending) return;`, so while a turn is in
flight a new turn is dropped without issuing a second request and
without touching any state (no interleaved partial effects); and any
state in which a request has just been issued shows the
"still processing" signal: `sending` set, the send button disabled and
the status line `"Sending..."`. -/
theorem c5_no_interleaved_turns (st : WidgetState)
    (text channelOverride : Option String) :
    (st.sending = true →
      sendCustomerMessageBegin st text channelOverride = (st, none)) ∧
    (∀ (st' : WidgetState) (req : MessageRequest),
      sendCustomerMessageBegin st text channelOverride = (st', some req) →
      st'.sending = true ∧ st'.sendBtnDisabled = true ∧
        st'.statusLine = "Sending...") := by
  unfold sendCustomerMessageBegin
  by_cases h : (text.getD st.input).trim = "" ∨ st.sending = true
  · rw [if_pos h]
    refine ⟨fun _ => rfl, fun st' req heq => ?_⟩
    exact absurd (congrArg Prod.snd heq) (by simp)
  · rw [if_neg h]
    refine ⟨fun hs => absurd (Or.inr hs) h, fun st' req heq => ?_⟩
    have hst : st' = { st with
        transcript := st.transcript ++ [⟨"user", (text.getD st.input).trim⟩]
        input := if text = none then "" else st.input
        sending := true
        sendBtnDisabled := true
        statusLine := "Sending..." } := (congrArg Prod.fst heq).symm
    rw [hst]
    exact ⟨rfl, rfl, rfl⟩

/-- C9: the second copy's `renderTechnical`
(customer_support.js:2533–2562) depends on the last response only
through the nine projected fields: two responses agreeing on
`session_id`, `tenant`, `channel`, `mode`, `state`, `agent`, `intent`,
`next_actions` and `escalate` give identical technical panels, so no
other response field is exposed there. -/
theorem c9_renderTechnical_noninterference (st : WidgetState)
    (r1 r2 : ApiResponse)
    (h1 : r1.session_id = r2.session_id) (h2 : r1.tenant = r2.tenant)
    (h3 : r1.channel = r2.channel) (h4 : r1.mode = r2.mode)
    (h5 : r1.state = r2.state) (h6 : r1.agent = r2.agent)
    (h7 : r1.intent = r2.intent) (h8 : r1.next_actions = r2.next_actions)
    (h9 : r1.escalate = r2.escalate) :
    renderTechnicalV2 { st with lastResponse := some r1 } =
      renderTechnicalV2 { st with lastResponse := some r2 } := by
  unfold renderTechnicalV2 safeLastResponse
  simp [h1, h2, h3, h4, h5, h6, h7, h8, h9]

/-- Witness for C9: two responses that differ in `message`,
`response_text`, `spoken_message`, `support_reference`,
`promise_ledger` and `customer_effort` but agree on the nine projected
fields render the same technical panel. -/
theorem c9_witness :
    renderTechnicalV2 { sampleState with lastResponse := some respA } =
      renderTechnicalV2 { sampleState with lastResponse := some respB } :=
  c9_renderTechnical_noninterference sampleState respA respB
    rfl rfl rfl rfl rfl rfl rfl rfl rfl

/-- C2: when the continue-channel request to the phone channel fails
for any reason (`attempt = .error`), both copies of `continueChannel`
(customer_support.js:589–627 and 1999–2038) return normally (`.ok`,
never re-raising to the caller) and show the customer one system note
that embeds the published call-center phone number. -/
theorem c2_continueChannel_phone_failure_safe (brand : Brand)
    (p errString : String)
    (hp : brand.callCenterPhone = some p) (hne : p ≠ "") :
    ∃ note : String,
      continueChannelV1 brand "phone" (Except.error errString) =
        Except.ok { notes := [note], statusLine := some "Phone number shown." } ∧
      continueChannelV2 brand "phone" (Except.error errString) =
        Except.ok { notes := [note], statusLine := some "Phone number shown." } ∧
      ∃ pre post, note = pre ++ p ++ post := by
  refine ⟨"Could not prepare phone continuation automatically. " ++
      jsOrStr brand.name "Support" ++ "'s published call center number is " ++
      p ++ ". Wait times may vary.", ?_, ?_, ?_⟩
  · unfold continueChannelV1
    simp [hp, jsOrStr, hne]
  · unfold continueChannelV2
    simp [hp, jsOrStr, hne]
  · exact ⟨"Could not prepare phone continuation automatically. " ++
      jsOrStr brand.name "Support" ++ "'s published call center number is ",
      ". Wait times may vary.", rfl⟩

/-- Witness for C2: with the Flair brand and a simulated network
failure of the gateway call, both copies return `.ok` with a note
containing the published number `1-833-711-2333`. -/
theorem c2_witness :
    ∃ note : String,
      continueChannelV1 ⟨some "Flair", some "1-833-711-2333"⟩ "phone"
          (Except.error "TypeError: Failed to fetch") =
        Except.ok { notes := [note], statusLine := some "Phone number shown." } ∧
      continueChannelV2 ⟨some "Flair", some "1-833-711-2333"⟩ "phone"
          (Except.error "TypeError: Failed to fetch") =
        Except.ok { notes := [note], statusLine := some "Phone number shown." } ∧
      ∃ pre post, note = pre ++ "1-833-711-2333" ++ post :=
  c2_continueChannel_phone_failure_safe ⟨some "Flair", some "1-833-711-2333"⟩
    "1-833-711-2333" "TypeError: Failed to fetch" rfl (by decide)

/-- Counterexample for C3: a commitment whose `due_at` (millisecond
1000) is two hours in the past at read time 7201000 and whose stored
status is still `active` is rendered with the `Active` badge and the
meta line `"Follow-up window reached."`; neither mentions overdue, so
the customer-facing list does not report it overdue. -/
theorem c3_counterexample :
    statusLowerDue pastDueActiveItem = "active" ∧
    pastDueActiveItem.due_at = some 1000 ∧
    ((1000 : Int) - 7201000 < 0) ∧
    promiseStatusBadge pastDueActiveItem = "Active" ∧
    formatPromiseDue pastDueActiveItem 7201000 = "Follow-up window reached." ∧
    strContains (formatPromiseDue pastDueActiveItem 7201000) "overdue" = false ∧
    strContains (promiseStatusBadge pastDueActiveItem) "overdue" = false := by
  refine ⟨by decide, by decide, by decide, by decide, by decide, by decide, by decide⟩

/-- C3 (amended): the promise-ledger renderer
(customer_support.js:1805–1858) reads overdue from the stored status
field rather than recomputing it: an item with past `due_at` and
status `active` keeps the `Active` badge and shows
`"Follow-up window reached."`, while the overdue wording appears
exactly when the delivered status field is already `overdue`. -/
theorem c3_overdue_read_from_stored_status (it : PromiseItem) (now due : Int)
    (hdue : it.due_at = some due) :
    (statusLowerDue it = "active" → due - now ≤ 0 →
      formatPromiseDue it now = "Follow-up window reached." ∧
      promiseStatusBadge it = "Active") ∧
    (statusLowerDue it = "overdue" →
      ∃ rest, formatPromiseDue it now = "Follow-up may be overdue (" ++ rest) := by
  constructor
  · intro hact hms
    constructor
    · have hno : ¬ statusLowerDue it = "overdue" := by rw [hact]; decide
      simp only [formatPromiseDue, hdue]
      rw [if_neg hno, if_pos hms]
    · unfold statusLowerDue at hact
      unfold promiseStatusBadge
      cases hst : it.status with
      | none =>
          rw [hst] at hact
          exact absurd hact (by decide)
      | some s =>
          rw [hst] at hact
          by_cases hs : s = ""
          · subst hs
            exact absurd hact (by decide)
          · have hjs : jsOrStr (some s) "" = s := by simp [jsOrStr, hs]
            rw [hjs] at hact
            have hjs2 : jsOrStr (some s) "active" = s := by simp [jsOrStr, hs]
            rw [hjs2, hact]
            decide
  · intro hov
    simp only [formatPromiseDue, hdue]
    rw [if_pos hov]
    by_cases hh : jsRound (due - now).natAbs 3600000 ≤ 1
    · rw [if_pos hh]
      exact ⟨"about an hour).", by decide⟩
    · rw [if_neg hh]
      exact ⟨toString (jsRound (due - now).natAbs 3600000) ++ "h).",
        String.append_assoc "Follow-up may be overdue ("
          (toString (jsRound (due - now).natAbs 3600000)) "h)."⟩

/-- Witness for C3's amended statement: at the same read time, the
same item with stored status `overdue` does show the overdue wording,
and the `active` branch is exercised by the counterexample item. -/
theorem c3_witness :
    (statusLowerDue storedOverdueItem = "active" →
      (1000 : Int) - 7201000 ≤ 0 →
      formatPromiseDue storedOverdueItem 7201000 = "Follow-up window reached." ∧
      promiseStatusBadge storedOverdueItem = "Active") ∧
    (statusLowerDue storedOverdueItem = "overdue" →
      ∃ rest, formatPromiseDue storedOverdueItem 7201000 =
        "Follow-up may be overdue (" ++ rest) :=
  c3_overdue_read_from_stored_status storedOverdueItem 7201000 1000 rfl

/-- Counterexample for C4: `newSessionId`
(customer_support.js:1365–1367) keeps only eight base-36 characters of
the `Math.random()` draw, so two distinct draws that agree on those
eight characters give the same session identifier — distinctness of
identifiers across distinct conversations is not guaranteed. -/
theorem c4_counterexample :
    newSessionId "0.q2w3e4r5t6" = newSessionId "0.q2w3e4r5t7" ∧
    ("0.q2w3e4r5t6" : String) ≠ "0.q2w3e4r5t7" :=
  ⟨by decide, by decide⟩

/-- C4 (amended): `resetSession` (customer_support.js:2040–2074)
assigns a brand-new identifier drawn by `newSessionId` from a fresh
random draw and clears only the local conversation state (customer id
and tenant are untouched, the backend session is only sent a reset
request whose failure is ignored); but two identifiers collide exactly
when their draws agree on the eight sliced characters, so uniqueness
across conversations is probabilistic, not guaranteed. -/
theorem c4_resetSession_fresh_probabilistic_id :
    (∀ (st : WidgetState) (r : String),
      (resetSession st r).sessionId = newSessionId r ∧
      (resetSession st r).lastResponse = none ∧
      (resetSession st r).promiseLedger = [] ∧
      (resetSession st r).customerEffort = none ∧
      (resetSession st r).customerId = st.customerId ∧
      (resetSession st r).tenant = st.tenant) ∧
    (∀ r1 r2 : String,
      newSessionId r1 = newSessionId r2 ↔ jsSlice r1 2 10 = jsSlice r2 2 10) := by
  constructor
  · intro st r
    exact ⟨rfl, rfl, rfl, rfl, rfl, rfl⟩
  · intro r1 r2
    constructor
    · intro h
      have hd := congrArg String.data h
      unfold newSessionId at hd
      rw [String.data_append, String.data_append] at hd
      exact String.ext (List.append_cancel_left hd)
    · intro h
      unfold newSessionId
      rw [h]

/-- `processTurn` on a sequence number already recorded replays the
stored response and leaves the session unchanged. -/
theorem processTurn_found (handle : String → String) (policy : String → Bool)
    (commit arts : String → List String) (sess : CoreModel.CoreSession)
    (seq : Nat) (text : String) (t : CoreModel.CoreTurnRecord)
    (h : sess.turns.find? (fun t => t.seq == seq) = some t) :
    CoreModel.processTurn handle policy commit arts sess seq text =
      (sess, t.response) := by
  unfold CoreModel.processTurn
  rw [h]

/-- `processTurn` on a fresh sequence number appends the new turn
record and returns the freshly computed response. -/
theorem processTurn_fresh (handle : String → String) (policy : String → Bool)
    (commit arts : String → List String) (sess : CoreModel.CoreSession)
    (seq : Nat) (text : String)
    (h : sess.turns.find? (fun t => t.seq == seq) = none) :
    CoreModel.processTurn handle policy commit arts sess seq text =
      ({ sess with
          escalated := sess.escalated || policy text
          turns := sess.turns ++
            [⟨seq, text, ⟨handle text, sess.escalated || policy text⟩⟩]
          commitments := sess.commitments ++ commit text
          artifacts := sess.artifacts ++ arts text },
        ⟨handle text, sess.escalated || policy text⟩) := by
  unfold CoreModel.processTurn
  rw [h]

/-- C6: redelivering the same `(sequence, text)` pair to `processTurn`
is idempotent: the second delivery returns the byte-identical response
of the first and leaves the session — its commitments and artifacts
included — unchanged. -/
theorem c6_redelivered_turn_idempotent (handle : String → String)
    (policy : String → Bool) (commit arts : String → List String)
    (sess : CoreModel.CoreSession) (seq : Nat) (text : String) :
    CoreModel.processTurn handle policy commit arts
        (CoreModel.processTurn handle policy commit arts sess seq text).1
        seq text =
      CoreModel.processTurn handle policy commit arts sess seq text := by
  cases hf : sess.turns.find? (fun t => t.seq == seq) with
  | some t =>
      have h1 := processTurn_found handle policy commit arts sess seq text t hf
      rw [h1]
      exact h1
  | none =>
      have h1 := processTurn_fresh handle policy commit arts sess seq text hf
      rw [h1]
      have h2 : (sess.turns ++
          [(⟨seq, text, ⟨handle text, sess.escalated || policy text⟩⟩ :
            CoreModel.CoreTurnRecord)]).find? (fun t => t.seq == seq) =
          some ⟨seq, text, ⟨handle text, sess.escalated || policy text⟩⟩ := by
        rw [List.find?_append, hf]
        simp [List.find?]
      exact processTurn_found handle policy commit arts
        { sess with
            escalated := sess.escalated || policy text
            turns := sess.turns ++
              [⟨seq, text, ⟨handle text, sess.escalated || policy text⟩⟩]
            commitments := sess.commitments ++ commit text
            artifacts := sess.artifacts ++ arts text }
        seq text _ h2

/-- C7: in a session whose escalation flag is set, every subsequent
fresh turn (new sequence numbers: redeliveries idempotently replay
their original response per C6) again returns `escalate = true` and
keeps the session escalated; only the explicit external
`clearEscalation` resets the flag. -/
theorem c7_escalation_monotonic (handle : String → String)
    (policy : String → Bool) (commit arts : String → List String)
    (sess : CoreModel.CoreSession) (ts : List (Nat × String))
    (hesc : sess.escalated = true)
    (hfresh : ∀ p ∈ ts, sess.turns.find? (fun t => t.seq == p.1) = none)
    (hnodup : (ts.map Prod.fst).Nodup) :
    ((CoreModel.runTurns handle policy commit arts sess ts).2.all
        fun r => r.escalate) = true ∧
    (CoreModel.runTurns handle policy commit arts sess ts).1.escalated = true ∧
    (CoreModel.clearEscalation
        (CoreModel.runTurns handle policy commit arts sess ts).1).escalated =
      false := by
  induction ts generalizing sess with
  | nil => exact ⟨rfl, hesc, rfl⟩
  | cons head rest ih =>
      obtain ⟨seq, text⟩ := head
      rw [List.map_cons, List.nodup_cons] at hnodup
      have hfhead := hfresh (seq, text) (List.mem_cons_self _ _)
      have hstep := processTurn_fresh handle policy commit arts sess seq text hfhead
      have hih := ih { sess with
          escalated := sess.escalated || policy text
          turns := sess.turns ++
            [⟨seq, text, ⟨handle text, sess.escalated || policy text⟩⟩]
          commitments := sess.commitments ++ commit text
          artifacts := sess.artifacts ++ arts text }
        (by simp [hesc])
        (by
          intro p hp
          have hne : seq ≠ p.1 := fun hcontra =>
            hnodup.1 (hcontra ▸ List.mem_map.mpr ⟨p, hp, rfl⟩)
          show (sess.turns ++
              [(⟨seq, text, ⟨handle text, sess.escalated || policy text⟩⟩ :
                CoreModel.CoreTurnRecord)]).find? (fun t => t.seq == p.1) = none
          rw [List.find?_append, hfresh p (List.mem_cons_of_mem _ hp)]
          have hbeq : (seq == p.1) = false := beq_eq_false_iff_ne.mpr hne
          simp [List.find?, hbeq])
        hnodup.2
      refine ⟨?_, ?_, rfl⟩
      · simp only [CoreModel.runTurns, hstep, List.all_cons, Bool.and_eq_true]
        refine ⟨?_, hih.1⟩
        show (sess.escalated || policy text) = true
        rw [hesc]
        exact Bool.true_or _
      · simp only [CoreModel.runTurns, hstep]
        exact hih.2.1

/-- Witness for C7: an already-escalated empty session receiving two
fresh turns returns `escalate = true` on both and stays escalated
until the explicit clear. -/
theorem c7_witness :
    ((CoreModel.runTurns (fun _ => "Handled.") (fun _ => false)
        (fun _ => []) (fun _ => []) ⟨true, [], [], []⟩
        [(1, "hello"), (2, "thanks")]).2.all fun r => r.escalate) = true ∧
    (CoreModel.runTurns (fun _ => "Handled.") (fun _ => false)
        (fun _ => []) (fun _ => []) ⟨true, [], [], []⟩
        [(1, "hello"), (2, "thanks")]).1.escalated = true ∧
    (CoreModel.clearEscalation
        (CoreModel.runTurns (fun _ => "Handled.") (fun _ => false)
          (fun _ => []) (fun _ => []) ⟨true, [], [], []⟩
          [(1, "hello"), (2, "thanks")]).1).escalated = false :=
  c7_escalation_monotonic (fun _ => "Handled.") (fun _ => false)
    (fun _ => []) (fun _ => []) ⟨true, [], [], []⟩ [(1, "hello"), (2, "thanks")]
    rfl (by intro p _; rfl) (by decide)

end CustomerSupport
